import Mathlib

/-!
Shallow embedding of `domainchecks/models.py`: the two model classes
(`DomainCheck`, `CheckResult`) and the custom queryset operations
(`active`, `stale`, `status`).  The queryset operations are modelled
per check: each takes the list of `CheckResult` rows belonging to one
`DomainCheck` together with the current time, and returns what the
corresponding annotated row would carry.  SQL `NULL` is modelled by
`Option`; timestamps are integer seconds (so `timedelta(hours=1)` is
`3600`); the float expression `successes * 100.0 / pings` is modelled
over `Rat`, with SQL division by a zero denominator yielding `NULL`
(`none`), as the backing database produces for this query.
-/

namespace DomainChecks

/-- `DomainCheck` model: a configured website check.  Field defaults
mirror the model declaration: `protocol` defaults to `'http'`,
`method` to `'get'`, `is_active` to `True`. -/
structure DomainCheck where
  domain : String
  path : String
  protocol : String := "http"
  method : String := "get"
  is_active : Bool := true
deriving Repr, DecidableEq

/-- `CheckResult` model: result of a status check on a website.
`checked_on` is a required timestamp; `status_code` is a
`PositiveIntegerField(null=True)`, hence an optional non-negative
integer; `response_time` is a `FloatField(null=True)`; `response_body`
is a `TextField(default='')`. -/
structure CheckResult where
  checked_on : Int
  status_code : Option Nat
  response_time : Option Rat
  response_body : String := ""
deriving Repr, DecidableEq

/-- Creating a `DomainCheck` supplying only `domain` and `path`: every
other field takes its declared default. -/
def DomainCheck.create (domain path : String) : DomainCheck :=
  { domain := domain, path := path }

/-- Creating a `CheckResult` without supplying `response_body`: the
field takes its declared default `''`. -/
def CheckResult.create (checked_on : Int) (status_code : Option Nat)
    (response_time : Option Rat) : CheckResult :=
  { checked_on := checked_on, status_code := status_code,
    response_time := response_time }

/-- `DomainCheck.url`: `'{protocol}://{domain}{path}'.format(...)`. -/
def DomainCheck.url (c : DomainCheck) : String :=
  s!"{c.protocol}://{c.domain}{c.path}"

/-- `max_length=253` on the `domain` field. -/
def DomainCheck.domain_max_length : Nat := 253

/-- `max_length=1024` on the `path` field. -/
def DomainCheck.path_max_length : Nat := 1024

/-- A `DomainCheck` row respects the declared `max_length` bounds of
its two `CharField`s. -/
def DomainCheck.fits_field_limits (c : DomainCheck) : Bool :=
  decide (c.domain.length ≤ DomainCheck.domain_max_length) &&
  decide (c.path.length ≤ DomainCheck.path_max_length)

/-- `DomainCheckQuerySet.active`: `self.filter(is_active=True)`. -/
def active (checks : List DomainCheck) : List DomainCheck :=
  checks.filter (fun c => c.is_active)

/-- `Max('checkresult__checked_on')`: the SQL `MAX` aggregate over all
of a check's results, `NULL` when there are none. -/
def last_check : List CheckResult → Option Int
  | [] => none
  | r :: rs =>
    match last_check rs with
    | none => some r.checked_on
    | some m => some (max r.checked_on m)

/-- The default `cutoff=datetime.timedelta(hours=1)` of `stale` and
`status`, in seconds. -/
def default_cutoff : Int := 3600

/-- `DomainCheckQuerySet.stale`: a check passes the filter
`Q(last_check__lt=end_time) | Q(last_check__isnull=True)` where
`end_time = now() - cutoff`.  (SQL comparison with `NULL` is not true,
so the `isnull` arm is what admits checks without results.) -/
def stale (results : List CheckResult) (now cutoff : Int) : Bool :=
  match last_check results with
  | none => true
  | some lc => decide (lc < now - cutoff)

/-- The `ping` condition `Q(checkresult__checked_on__gte=start_time)`. -/
def ping_p (start_time : Int) (r : CheckResult) : Bool :=
  decide (start_time ≤ r.checked_on)

/-- The `success` condition
`Q(checkresult__checked_on__gte=start_time, checkresult__status_code__range=(200, 299))`.
A `NULL` `status_code` makes the `range` test SQL-`NULL`, so the row
is not counted. -/
def success_p (start_time : Int) (r : CheckResult) : Bool :=
  decide (start_time ≤ r.checked_on) &&
    (match r.status_code with
     | some c => decide (200 ≤ c) && decide (c ≤ 299)
     | none => false)

/-- The `status` `Case` expression, in source order:
`success_rate__gt=90 → 'good'`, `success_rate__range=(75, 90) → 'fair'`,
`success_rate__lt=75 → 'poor'`, `success_rate__isnull=True → 'unknown'`.
Each comparison against a `NULL` rate is SQL-`NULL`, hence not taken. -/
def classify (rate : Option Rat) : Option String :=
  match rate with
  | some r =>
    if 90 < r then some "good"
    else if 75 ≤ r ∧ r ≤ 90 then some "fair"
    else if r < 75 then some "poor"
    else none
  | none => some "unknown"

/-- The row produced by `DomainCheckQuerySet.status` for one check. -/
structure StatusRow where
  last_check : Option Int
  successes : Nat
  pings : Nat
  success_rate : Option Rat
  status : Option String
deriving Repr, DecidableEq

/-- `DomainCheckQuerySet.status`: `start_time = now() - cutoff`;
`successes = Count(Case(When(success, then=1)))`;
`pings = Count(Case(When(ping, then=1)))`;
`success_rate = successes * 100.0 / pings` (`NULL` when `pings` is 0);
`status` from the `Case` ladder `classify`. -/
def status (results : List CheckResult) (now cutoff : Int) : StatusRow :=
  let start_time := now - cutoff
  let s_count := (results.filter (success_p start_time)).length
  let p_count := (results.filter (ping_p start_time)).length
  let rate : Option Rat :=
    if p_count = 0 then none
    else some ((s_count : Rat) * 100 / (p_count : Rat))
  { last_check := last_check results
    successes := s_count
    pings := p_count
    success_rate := rate
    status := classify rate }

/-- Written from the spec's words, for comparison with `status`: the
count of results whose `checked_on` lies within the closed window
`[now - cutoff, now]`, a result later than `now` being excluded. -/
def spec_window_pings (results : List CheckResult) (now cutoff : Int) : Nat :=
  (results.filter (fun r =>
    decide (now - cutoff ≤ r.checked_on) && decide (r.checked_on ≤ now))).length

/-- Ten results for the scenario-B witness: nine with status 200 and
one timeout (`status_code` absent), all inside the window. -/
def scenario_b_results : List CheckResult :=
  List.replicate 9 (CheckResult.create 0 (some 200) none) ++
    [CheckResult.create 0 none none]

/-- A single result stamped after `now = 0`. -/
def future_result : CheckResult := CheckResult.create 100 (some 200) none

end DomainChecks

namespace DomainChecks

theorem status_last_check (results : List CheckResult) (now cutoff : Int) :
    (status results now cutoff).last_check = last_check results := rfl

theorem status_pings (results : List CheckResult) (now cutoff : Int) :
    (status results now cutoff).pings =
      (results.filter (ping_p (now - cutoff))).length := rfl

theorem status_successes (results : List CheckResult) (now cutoff : Int) :
    (status results now cutoff).successes =
      (results.filter (success_p (now - cutoff))).length := rfl

theorem status_success_rate (results : List CheckResult) (now cutoff : Int) :
    (status results now cutoff).success_rate =
      if (results.filter (ping_p (now - cutoff))).length = 0 then none
      else some (((results.filter (success_p (now - cutoff))).length : Rat) * 100 /
        ((results.filter (ping_p (now - cutoff))).length : Rat)) := rfl

theorem status_status (results : List CheckResult) (now cutoff : Int) :
    (status results now cutoff).status =
      classify ((status results now cutoff).success_rate) := rfl

theorem classify_cases (v : Rat) :
    (classify (some v) = some "good" ↔ 90 < v) ∧
    (classify (some v) = some "fair" ↔ 75 ≤ v ∧ v ≤ 90) ∧
    (classify (some v) = some "poor" ↔ v < 75) := by
  have g1 : (some "good" : Option String) ≠ some "fair" := by decide
  have g2 : (some "good" : Option String) ≠ some "poor" := by decide
  have g3 : (some "fair" : Option String) ≠ some "good" := by decide
  have g4 : (some "fair" : Option String) ≠ some "poor" := by decide
  have g5 : (some "poor" : Option String) ≠ some "good" := by decide
  have g6 : (some "poor" : Option String) ≠ some "fair" := by decide
  have hcl : classify (some v) =
      (if 90 < v then some "good" else if 75 ≤ v ∧ v ≤ 90 then some "fair"
        else if v < 75 then some "poor" else none) := rfl
  rw [hcl]
  split_ifs with h1 h2 h3
  · have hf : ¬ (75 ≤ v ∧ v ≤ 90) := fun hc => absurd h1 (not_lt.mpr hc.2)
    have hp : ¬ v < 75 := by intro hc; linarith
    simp [h1, hf, hp, g1, g2]
  · have hp : ¬ v < 75 := not_lt.mpr h2.1
    simp [h1, h2, hp, g3, g4]
  · simp [h1, h2, h3, g5, g6]
  · exact absurd ⟨not_lt.mp h3, not_lt.mp h1⟩ h2

theorem successes_le_pings (results : List CheckResult) (t : Int) :
    (results.filter (success_p t)).length ≤ (results.filter (ping_p t)).length := by
  rw [← List.countP_eq_length_filter, ← List.countP_eq_length_filter]
  apply List.countP_mono_left
  intro r _ h
  have := (Bool.and_eq_true _ _).mp h
  exact this.1

theorem last_check_eq_none_iff (results : List CheckResult) :
    last_check results = none ↔ results = [] := by
  cases results with
  | nil => simp [last_check]
  | cons r rs =>
    simp only [last_check]
    cases last_check rs <;> simp

theorem last_check_mem (results : List CheckResult) :
    ∀ m : Int, last_check results = some m → ∃ r ∈ results, r.checked_on = m := by
  induction results with
  | nil => intro m h; simp [last_check] at h
  | cons r rs ih =>
    intro m h
    simp only [last_check] at h
    cases hrs : last_check rs with
    | none =>
      rw [hrs] at h
      exact ⟨r, List.mem_cons_self r rs, (Option.some.injEq _ _).mp h⟩
    | some m' =>
      rw [hrs] at h
      have hm : max r.checked_on m' = m := (Option.some.injEq _ _).mp h
      rcases le_total m' r.checked_on with hle | hle
      · exact ⟨r, List.mem_cons_self r rs, by rw [← hm, max_eq_left hle]⟩
      · obtain ⟨r', hr', he'⟩ := ih m' hrs
        exact ⟨r', List.mem_cons_of_mem r hr', by rw [he', ← hm, max_eq_right hle]⟩

theorem last_check_is_ub (results : List CheckResult) :
    ∀ m : Int, last_check results = some m → ∀ r ∈ results, r.checked_on ≤ m := by
  induction results with
  | nil => intro m _ x hx; simp at hx
  | cons r rs ih =>
    intro m h x hx
    simp only [last_check] at h
    cases hrs : last_check rs with
    | none =>
      rw [hrs] at h
      have hnil : rs = [] := (last_check_eq_none_iff rs).mp hrs
      subst hnil
      rcases List.mem_cons.mp hx with hx | hx
      · rw [hx]; exact le_of_eq ((Option.some.injEq _ _).mp h)
      · simp at hx
    | some m' =>
      rw [hrs] at h
      have hm : max r.checked_on m' = m := (Option.some.injEq _ _).mp h
      rcases List.mem_cons.mp hx with hx | hx
      · rw [hx, ← hm]; exact le_max_left _ _
      · exact le_trans (ih m' hrs x hx) (hm ▸ le_max_right r.checked_on m')

end DomainChecks

namespace DomainChecks

/-- C1: for every check with at least one result in the window, the
classification produced by the `status` operation is determined by
`success_rate` exactly as: rate > 90 yields `'good'`, 75 ≤ rate ≤ 90
yields `'fair'` (so exactly 90 and exactly 75 are both `'fair'`), and
rate < 75 yields `'poor'`, the `'good'` test being applied before the
`'fair'` test. -/
theorem C1_classification_thresholds (results : List CheckResult) (now cutoff : Int)
    (h : 0 < (status results now cutoff).pings) :
    ∃ v : Rat, (status results now cutoff).success_rate = some v ∧
      ((status results now cutoff).status = some "good" ↔ 90 < v) ∧
      ((status results now cutoff).status = some "fair" ↔ 75 ≤ v ∧ v ≤ 90) ∧
      ((status results now cutoff).status = some "poor" ↔ v < 75) := by
  rw [status_pings] at h
  have hp : ¬ ((results.filter (ping_p (now - cutoff))).length = 0) := by omega
  have hrate : (status results now cutoff).success_rate =
      some (((results.filter (success_p (now - cutoff))).length : Rat) * 100 /
        ((results.filter (ping_p (now - cutoff))).length : Rat)) := by
    rw [status_success_rate, if_neg hp]
  refine ⟨_, hrate, ?_, ?_, ?_⟩ <;> rw [status_status, hrate]
  · exact (classify_cases _).1
  · exact (classify_cases _).2.1
  · exact (classify_cases _).2.2

/-- C1 witness: scenario B, ten results of which nine are successes;
the rate is 90 and the classification is `'fair'`. -/
theorem C1_classification_thresholds_witness :
    0 < (status scenario_b_results 0 3600).pings ∧
    (∃ v : Rat, (status scenario_b_results 0 3600).success_rate = some v ∧
      ((status scenario_b_results 0 3600).status = some "good" ↔ 90 < v) ∧
      ((status scenario_b_results 0 3600).status = some "fair" ↔ 75 ≤ v ∧ v ≤ 90) ∧
      ((status scenario_b_results 0 3600).status = some "poor" ↔ v < 75)) := by
  have hp : 0 < (status scenario_b_results 0 3600).pings := by
    rw [status_pings]
    simp [scenario_b_results, ping_p, CheckResult.create, List.replicate]
  exact ⟨hp, C1_classification_thresholds scenario_b_results 0 3600 hp⟩

/-- C2 counterexample: the claim says a result with `checked_on` later
than `now` is excluded from the window, but the queryset only filters
`checked_on__gte=start_time`: a result stamped at `now + 100` is
counted in `pings` (and in `successes`), while the spec's closed
window `[now - cutoff, now]` counts nothing. -/
theorem C2_window_upper_bound_counterexample :
    future_result.checked_on > 0 ∧
    (status [future_result] 0 3600).pings = 1 ∧
    (status [future_result] 0 3600).successes = 1 ∧
    spec_window_pings [future_result] 0 3600 = 0 := by
  refine ⟨by decide, ?_, ?_, by decide⟩
  · rw [status_pings]; decide
  · rw [status_successes]; decide

/-- C2 amended: `pings` counts every result with
`checked_on ≥ now - cutoff` (no upper bound at `now`); `successes`
counts exactly those such results whose `status_code` is present and
in `[200, 299]`; `success_rate = successes / pings * 100` when
`pings ≠ 0`; a result with absent `status_code` never satisfies the
success condition. -/
theorem C2_success_rate_amended (results : List CheckResult) (now cutoff : Int) :
    ((status results now cutoff).pings =
      results.countP (fun r => decide (now - cutoff ≤ r.checked_on))) ∧
    ((status results now cutoff).successes =
      results.countP (fun r => decide (now - cutoff ≤ r.checked_on) &&
        (r.status_code.elim false (fun c => decide (200 ≤ c ∧ c ≤ 299))))) ∧
    ((status results now cutoff).success_rate =
      if (status results now cutoff).pings = 0 then none
      else some (((status results now cutoff).successes : Rat) /
        ((status results now cutoff).pings : Rat) * 100)) ∧
    (∀ r ∈ results, r.status_code = none → success_p (now - cutoff) r = false) := by
  refine ⟨?_, ?_, ?_, ?_⟩
  · rw [status_pings, List.countP_eq_length_filter]
    rfl
  · rw [status_successes, List.countP_eq_length_filter]
    congr 1
    apply List.filter_congr
    intro r _
    cases hsc : r.status_code with
    | none => simp [success_p, hsc]
    | some c => simp [success_p, hsc, Bool.decide_and]
  · rw [status_success_rate, status_pings, status_successes]
    split_ifs with h0
    · rfl
    · rw [div_mul_eq_mul_div]
  · intro r _ hsc
    simp [success_p, hsc]

/-- C2 amended witness: the success-rate formula instantiated on the
scenario-B results. -/
theorem C2_success_rate_amended_witness :
    (status scenario_b_results 0 3600).success_rate =
      if (status scenario_b_results 0 3600).pings = 0 then none
      else some (((status scenario_b_results 0 3600).successes : Rat) /
        ((status scenario_b_results 0 3600).pings : Rat) * 100) :=
  (C2_success_rate_amended scenario_b_results 0 3600).2.2.1

/-- C3: with zero results in the scoring window the `status` operation
still yields a row: `success_rate` is `NULL` rather than an error, and
the classification is `'unknown'`. -/
theorem C3_zero_pings_unknown (results : List CheckResult) (now cutoff : Int)
    (h : (status results now cutoff).pings = 0) :
    (status results now cutoff).success_rate = none ∧
    (status results now cutoff).status = some "unknown" := by
  rw [status_pings] at h
  have h1 : (status results now cutoff).success_rate = none := by
    rw [status_success_rate, if_pos h]
  refine ⟨h1, ?_⟩
  rw [status_status, h1]
  rfl

/-- C3 witness: a check with no recorded results. -/
theorem C3_zero_pings_unknown_witness :
    (status [] 0 3600).pings = 0 ∧
    ((status [] 0 3600).success_rate = none ∧
      (status [] 0 3600).status = some "unknown") :=
  ⟨rfl, C3_zero_pings_unknown [] 0 3600 rfl⟩

/-- C4: the `stale` operation reports a check stale exactly when its
`last_check` is `NULL` (no `CheckResult` at all) or strictly earlier
than `now - cutoff`; every check with no results is stale; the default
cutoff is one hour. -/
theorem C4_stale_characterisation (results : List CheckResult) (now cutoff : Int) :
    (stale results now cutoff = true ↔
      last_check results = none ∨
        ∃ lc, last_check results = some lc ∧ lc < now - cutoff) ∧
    (results = [] → stale results now cutoff = true) ∧
    default_cutoff = 3600 := by
  refine ⟨?_, ?_, rfl⟩
  · unfold stale
    cases hlc : last_check results with
    | none => simp
    | some lc => simp
  · intro hnil
    subst hnil
    rfl

/-- C4 witness: a check with no recorded results is stale. -/
theorem C4_stale_characterisation_witness : stale [] 0 3600 = true :=
  (C4_stale_characterisation [] 0 3600).2.1 rfl

/-- C5: `success_rate` is `NULL` exactly when `pings = 0`, lies in
`[0, 100]` whenever it is present, and `successes ≤ pings` always. -/
theorem C5_success_rate_bounds (results : List CheckResult) (now cutoff : Int) :
    ((status results now cutoff).success_rate = none ↔
      (status results now cutoff).pings = 0) ∧
    (∀ v : Rat, (status results now cutoff).success_rate = some v →
      0 ≤ v ∧ v ≤ 100) ∧
    (status results now cutoff).successes ≤ (status results now cutoff).pings := by
  have hsp : (results.filter (success_p (now - cutoff))).length ≤
      (results.filter (ping_p (now - cutoff))).length :=
    successes_le_pings results (now - cutoff)
  refine ⟨?_, ?_, ?_⟩
  · rw [status_success_rate, status_pings]
    split_ifs with h0 <;> simp [h0]
  · intro v hv
    rw [status_success_rate] at hv
    split_ifs at hv with h0
    have hveq : v = ((results.filter (success_p (now - cutoff))).length : Rat) * 100 /
        ((results.filter (ping_p (now - cutoff))).length : Rat) :=
      ((Option.some.injEq _ _).mp hv).symm
    have hpq : (0 : Rat) < ((results.filter (ping_p (now - cutoff))).length : Rat) := by
      exact_mod_cast Nat.pos_of_ne_zero h0
    have hcast : ((results.filter (success_p (now - cutoff))).length : Rat) ≤
        ((results.filter (ping_p (now - cutoff))).length : Rat) := by
      exact_mod_cast hsp
    constructor
    · rw [hveq]; positivity
    · rw [hveq, div_le_iff₀ hpq]
      linarith
  · rw [status_successes, status_pings]
    exact hsp

/-- C5 witness: `successes ≤ pings` on the scenario-B results. -/
theorem C5_success_rate_bounds_witness :
    (status scenario_b_results 0 3600).successes ≤
      (status scenario_b_results 0 3600).pings :=
  (C5_success_rate_bounds scenario_b_results 0 3600).2.2

end DomainChecks

namespace DomainChecks

/-- C6: the target URL of a `DomainCheck` is the exact concatenation
of its protocol, `'://'`, its domain and its path, with no other
separators inserted. -/
theorem C6_url_format (c : DomainCheck) :
    c.url = c.protocol ++ "://" ++ c.domain ++ c.path := by
  show "" ++ c.protocol ++ "://" ++ c.domain ++ "" ++ c.path ++ "" =
    c.protocol ++ "://" ++ c.domain ++ c.path
  simp [String.append_empty, String.empty_append]

/-- C7: `active` returns exactly the checks whose `is_active` flag is
true — every returned check is active, no active check is omitted —
and it only selects from the stored checks (it is a sublist of its
input; being a pure function it mutates nothing). -/
theorem C7_active_filters_exactly (checks : List DomainCheck) :
    (∀ c : DomainCheck, c ∈ active checks ↔ c ∈ checks ∧ c.is_active = true) ∧
    List.Sublist (active checks) checks := by
  constructor
  · intro c
    simp [active, List.mem_filter]
  · exact List.filter_sublist _

/-- C8: the declared data-model constraints: `domain` at most 253
characters and `path` at most 1024; `checked_on` is required and
carried verbatim; `status_code` an optional non-negative integer that
may be null; `response_time` optional and possibly null;
`response_body` defaults to the empty string when not supplied. -/
theorem C8_field_constraints :
    (∀ c : DomainCheck, c.fits_field_limits = true ↔
      c.domain.length ≤ 253 ∧ c.path.length ≤ 1024) ∧
    (∀ (t : Int) (sc : Option Nat) (rt : Option Rat),
      (CheckResult.create t sc rt).checked_on = t ∧
      (CheckResult.create t sc rt).status_code = sc ∧
      (CheckResult.create t sc rt).response_time = rt ∧
      (CheckResult.create t sc rt).response_body = "") ∧
    (∃ r : CheckResult, r.status_code = none ∧ r.response_time = none) := by
  refine ⟨?_, fun t sc rt => ⟨rfl, rfl, rfl, rfl⟩,
    ⟨CheckResult.create 0 none none, rfl, rfl⟩⟩
  intro c
  simp [DomainCheck.fits_field_limits, DomainCheck.domain_max_length,
    DomainCheck.path_max_length]

/-- C9: the `last_check` value reported by `status` (and used by
`stale`) is the maximum `checked_on` over ALL of a check's results —
the same whatever the cutoff, `NULL` exactly when there are no results
at all — and a check whose only result is older than the window still
carries that result's timestamp while `pings = 0`. -/
theorem C9_last_check_over_all_results (results : List CheckResult)
    (now cutoff cutoff' : Int) :
    ((status results now cutoff).last_check =
      (status results now cutoff').last_check) ∧
    ((status results now cutoff).last_check = last_check results) ∧
    ((status results now cutoff).last_check = none ↔ results = []) ∧
    (∀ m : Int, (status results now cutoff).last_check = some m →
      (∃ r ∈ results, r.checked_on = m) ∧ ∀ r ∈ results, r.checked_on ≤ m) ∧
    (stale results now cutoff = true ↔
      (status results now cutoff).last_check = none ∨
        ∃ lc, (status results now cutoff).last_check = some lc ∧
          lc < now - cutoff) ∧
    ((status [CheckResult.create 0 (some 200) none] 10000 3600).pings = 0 ∧
      (status [CheckResult.create 0 (some 200) none] 10000 3600).last_check =
        some 0) := by
  refine ⟨rfl, rfl, ?_, ?_, ?_, ?_, ?_⟩
  · rw [status_last_check]
    exact last_check_eq_none_iff results
  · intro m hm
    rw [status_last_check] at hm
    exact ⟨last_check_mem results m hm, last_check_is_ub results m hm⟩
  · rw [status_last_check]
    unfold stale
    cases hlc : last_check results with
    | none => simp
    | some lc => simp
  · rw [status_pings]
    decide
  · rfl

/-- C9 witness: `last_check` agrees across two different cutoffs on a
concrete result list. -/
theorem C9_last_check_over_all_results_witness :
    (status [future_result] 0 1).last_check =
      (status [future_result] 0 2).last_check :=
  (C9_last_check_over_all_results [future_result] 0 1 2).1

/-- C10: a `DomainCheck` created with only `domain` and `path`
supplied receives `protocol = 'http'`, `method = 'get'` and
`is_active = true`, and is therefore picked up by `active`. -/
theorem C10_creation_defaults (d p : String) :
    (DomainCheck.create d p).protocol = "http" ∧
    (DomainCheck.create d p).method = "get" ∧
    (DomainCheck.create d p).is_active = true ∧
    DomainCheck.create d p ∈ active [DomainCheck.create d p] := by
  refine ⟨rfl, rfl, rfl, ?_⟩
  simp [active, DomainCheck.create]

end DomainChecks
